import Mathlib

set_option maxRecDepth 10000

/-!
Verification of the Scribble Quest backend (src/main.py).

The development shallowly embeds the pure computational content of the
backend: the image precheck (process_image), the challenge-object
extraction, the judgment-response parsing, the response composition of
the analyze-drawing endpoint, and the question post-processing of the
generate-questions endpoint.

External effects are modelled explicitly:
- base64+PIL decoding of the payload (everything after the data-URL
  comma) is an abstract decoder of type String to Option PILImage, an
  argument of the pipeline; None models an exception raised by decoding;
- the three hosted-model calls (vision judgment, DALL-E reward image,
  question generation) are arguments of type Except String String whose
  error case models an exception raised by the call and whose ok case
  carries the returned text (reply, image URL, message content);
- analyze_drawing returns, besides the JSON response, the list of
  external model calls it performed, so that the no-model-call parts of
  the specification are directly expressible;
- a JSON object is modelled by a structure; the optional reward_image
  key is an Option String, none modelling absence of the key.

Python string primitives are re-implemented structurally over the
character list of a String so that every definition evaluates inside
the kernel; each is a faithful model of the CPython operation on the
ASCII inputs this program manipulates (Python str.strip removes a
slightly larger Unicode whitespace set, and str.lower and str.upper act
on non-ASCII letters, but no difference is observable on the inputs in
question).
-/

/-- Python s.split(sep) on character lists, with fuel for structural
termination (fuel = length of the list always suffices for a nonempty
separator). Non-overlapping, left to right, keeps empty parts. -/
def pySplitChars (sep : List Char) : Nat → List Char → List (List Char)
  | _, [] => [[]]
  | 0, s => [s]
  | fuel+1, c :: rest =>
      if sep.isPrefixOf (c :: rest) then
        [] :: pySplitChars sep fuel ((c :: rest).drop sep.length)
      else
        match pySplitChars sep fuel rest with
        | [] => [[c]]
        | h :: t => (c :: h) :: t

/-- Python s.split(sep). -/
def pySplit (s sep : String) : List String :=
  (pySplitChars sep.data s.data.length s.data).map fun l => ⟨l⟩

/-- Python s.replace(old, new) on character lists, with fuel. -/
def pyReplaceChars (old new : List Char) : Nat → List Char → List Char
  | _, [] => []
  | 0, s => s
  | fuel+1, c :: rest =>
      if old.isPrefixOf (c :: rest) then
        new ++ pyReplaceChars old new fuel ((c :: rest).drop old.length)
      else
        c :: pyReplaceChars old new fuel rest

/-- Python s.replace(old, new): every non-overlapping occurrence of old
is replaced, scanning left to right. -/
def pyReplace (s old new : String) : String :=
  ⟨pyReplaceChars old.data new.data s.data.length s.data⟩

/-- Python s.strip(): remove whitespace from both ends. -/
def pyStrip (s : String) : String :=
  ⟨((s.data.dropWhile Char.isWhitespace).reverse.dropWhile Char.isWhitespace).reverse⟩

/-- Python s.lower(). -/
def pyLower (s : String) : String := ⟨s.data.map Char.toLower⟩

/-- Python s.upper(). -/
def pyUpper (s : String) : String := ⟨s.data.map Char.toUpper⟩

/-- Python s.startswith(pre). -/
def pyStartsWith (s pre : String) : Bool := pre.data.isPrefixOf s.data

/-- Python s.endswith(suf). -/
def pyEndsWith (s suf : String) : Bool := suf.data.isSuffixOf s.data

/-- Python (pat in s) on character lists. -/
def pyContainsChars (pat : List Char) : List Char → Bool
  | [] => pat.isPrefixOf []
  | c :: rest => pat.isPrefixOf (c :: rest) || pyContainsChars pat rest

/-- Python (pat in s). -/
def pyIn (pat s : String) : Bool := pyContainsChars pat.data s.data

/-- Python s.lstrip(chars): remove leading characters drawn from the set. -/
def pyLStrip (s chars : String) : String :=
  ⟨s.data.dropWhile (fun c => chars.data.contains c)⟩

/-- Python s[n:] (character-based slicing). -/
def pyDrop (s : String) (n : Nat) : String := ⟨s.data.drop n⟩

/-- Python len(s) (number of characters). -/
def pyLen (s : String) : Nat := s.data.length

/-- A pixel value as returned by PIL Image.getdata(): a tuple of channel
values for multi-band modes (RGB, RGBA, LA, ...) or a bare integer for
single-band modes (L, P, 1, I). -/
inductive PyPixel where
  | tup : List Nat → PyPixel
  | int : Nat → PyPixel
deriving DecidableEq

/-- A decoded PIL image: its size and the flat pixel list of getdata(). -/
structure PILImage where
  width : Nat
  height : Nat
  pixels : List PyPixel
deriving DecidableEq

/-- Python sum(pixel[:3]) from src/main.py line 64: sums the first three
channel values of a tuple pixel; slicing a bare-integer pixel raises
TypeError, modelled by the error case. -/
def sum_first3 : PyPixel → Except String Nat
  | .tup l => .ok ((l.take 3).sum)
  | .int _ => .error "TypeError: 'int' object is not subscriptable"

/-- Python sum(1 for pixel in pixels if sum(pixel[:3]) < 750) from
src/main.py line 64: counts the qualifying ink pixels, propagating the
TypeError raised on a bare-integer pixel. -/
def count_drawing_pixels : List PyPixel → Except String Nat
  | [] => .ok 0
  | p :: ps => do
      let s ← sum_first3 p
      let rest ← count_drawing_pixels ps
      pure (if s < 750 then rest + 1 else rest)

/-- The dictionary returned by process_image on success
(src/main.py lines 66-70). -/
structure ImageAnalysis where
  size : Nat × Nat
  drawing_density : ℚ
  has_drawing : Bool
deriving DecidableEq

/-- The result of process_image: either the analysis dictionary or the
error dictionary produced by the except branch (src/main.py lines 71-73). -/
inductive PIResult where
  | err : String → PIResult
  | ok : ImageAnalysis → PIResult
deriving DecidableEq

/-- src/main.py lines 50-73, process_image. The decoder argument models
base64.b64decode followed by PIL Image.open on the text after the first
comma; None models any exception raised there. image_data_url.split(',')[1]
raises IndexError when the payload has no comma; an empty pixel list makes
drawing_pixels / len(pixels) raise ZeroDivisionError; both land in the
except branch, as does a TypeError from a bare-integer pixel. -/
def process_image (decode : String → Option PILImage) (image_data_url : String) :
    PIResult :=
  match (pySplit image_data_url ",")[1]? with
  | none => .err "IndexError: list index out of range"
  | some image_data =>
    match decode image_data with
    | none => .err "image decode failed"
    | some image =>
      match count_drawing_pixels image.pixels with
      | .error e => .err e
      | .ok drawing_pixels =>
        if image.pixels.length = 0 then .err "ZeroDivisionError: division by zero"
        else
          .ok { size := (image.width, image.height),
                drawing_density := (drawing_pixels : ℚ) / (image.pixels.length : ℚ),
                has_drawing := drawing_pixels > 100 }

/-- The request body of POST /api/analyze-drawing (src/main.py lines 44-48). -/
structure DrawingRequest where
  image : String
  challenge : String
  level : Int
  session_id : String
deriving DecidableEq

/-- The JSON object returned by the analyze-drawing and generate-questions
endpoints; reward_image = none models the absence of the key. -/
structure GameResponse where
  title : String
  message : String
  points : Nat
  success : Bool
  reward_image : Option String := none
deriving DecidableEq

/-- An external hosted-model call performed by analyze_drawing. -/
inductive ExtCall where
  | vision : ExtCall
  | dalle : ExtCall
deriving DecidableEq

/-- src/main.py lines 160-174: the raw challenge-object extraction,
before the short-result fallback. -/
def extract_raw (challenge : String) : String :=
  let challenge_text := pyStrip (pyLower challenge)
  if pyIn "draw a " challenge_text then
    pyStrip (pyReplace ((pySplit challenge_text "draw a ")[1]?.getD "") "!" "")
  else if pyIn "draw an " challenge_text then
    pyStrip (pyReplace ((pySplit challenge_text "draw an ")[1]?.getD "") "!" "")
  else if pyStartsWith challenge_text "draw " then
    pyStrip (pyReplace (pyDrop challenge_text 5) "!" "")
  else
    pyStrip (pyReplace (pyReplace (pyReplace challenge_text "draw" "") "something" "") "!" "")

/-- src/main.py lines 160-180: challenge-object extraction including the
fallback to the original challenge string when the extraction is empty or
shorter than 2 characters (Python: if not challenge_object or
len(challenge_object) < 2). -/
def extract_challenge_object (challenge : String) : String :=
  let challenge_object := extract_raw challenge
  if pyLen challenge_object < 2 then challenge else challenge_object

/-- src/main.py lines 239-241: the parsing state with its defaults. -/
structure JudgmentResult where
  is_match : Bool
  description : String
  message : String
deriving DecidableEq

/-- src/main.py lines 244-253: the line loop of the structured-response
parse; each line is stripped and a recognised line overwrites the
corresponding field (note the Python code removes every occurrence of
the tag with str.replace, not only the leading one). -/
def parse_lines : List String → JudgmentResult → JudgmentResult
  | [], acc => acc
  | l :: ls, acc =>
      parse_lines ls
        (if pyStartsWith (pyStrip l) "MATCH:" then
          { acc with is_match := pyIn "YES" (pyUpper (pyStrip (pyReplace (pyStrip l) "MATCH:" ""))) }
        else if pyStartsWith (pyStrip l) "DESCRIPTION:" then
          { acc with description := pyStrip (pyReplace (pyStrip l) "DESCRIPTION:" "") }
        else if pyStartsWith (pyStrip l) "MESSAGE:" then
          { acc with message := pyStrip (pyReplace (pyStrip l) "MESSAGE:" "") }
        else acc)

/-- The last line of the list that, once stripped, begins with the given
tag (returned stripped); none when no line does. Used to state what the
parsing loop computes, since each recognised line overwrites its field. -/
def last_tag_line (tag : String) : List String → Option String
  | [] => none
  | l :: ls =>
      match last_tag_line tag ls with
      | some r => some r
      | none => if pyStartsWith (pyStrip l) tag then some (pyStrip l) else none

/-- src/main.py lines 235-253: strip the model reply, split it into lines
and run the parsing loop starting from the default values. -/
def parse_judgment (ai_response : String) : JudgmentResult :=
  parse_lines (pySplit (pyStrip ai_response) "\n")
    { is_match := false,
      description := "I can see your drawing!",
      message := "Great effort on your drawing!" }

/-- src/main.py lines 182-303: the part of the analyze-drawing body after
the precheck has passed, from the vision try block to the returned JSON.
vision and dalle are the outcomes of the two external calls (error = the
call raised); the returned list records which external calls were
performed on the taken path. -/
def respond_with_judgment (challenge_object : String)
    (vision : Except String String) (dalle : Except String String) :
    GameResponse × List ExtCall :=
  match vision with
  | .error _ =>
      ({ title := "Something Magical!",
         message := "I can see you drew something creative! The AI is taking a break, but your art is still wonderful!",
         points := 50, success := true }, [.vision])
  | .ok ai_response =>
    let j := parse_judgment ai_response
    if j.is_match then
      match dalle with
      | .ok image_url =>
          ({ title := "Perfect!",
             message := j.description ++ " " ++ j.message ++ " Check out your masterpiece!",
             points := 100, success := true,
             reward_image := some image_url }, [.vision, .dalle])
      | .error _ =>
          ({ title := "Perfect!",
             message := j.description ++ " " ++ j.message,
             points := 100, success := true }, [.vision, .dalle])
    else
      ({ title := "Try Again!",
         message := j.description ++ " " ++ j.message ++ " You were asked to draw: " ++ challenge_object,
         points := 25, success := false }, [.vision])

/-- src/main.py lines 132-303, the analyze-drawing endpoint body. -/
def analyze_drawing (decode : String → Option PILImage)
    (vision : Except String String) (dalle : Except String String)
    (request : DrawingRequest) : GameResponse × List ExtCall :=
  match process_image decode request.image with
  | .err _ =>
      ({ title := "Error!",
         message := "Could not process your drawing. Try again!",
         points := 0, success := false }, [])
  | .ok image_analysis =>
    if !image_analysis.has_drawing then
      ({ title := "No Drawing!",
         message := "I don't see any drawing. Try drawing something!",
         points := 0, success := false }, [])
    else
      respond_with_judgment (extract_challenge_object request.challenge) vision dalle

/-- src/main.py lines 107-115, per-line post-processing of the
generate-questions reply: strip, remove leading numbering and bullet
characters, keep the line when it starts with draw (case-insensitively)
and is longer than 8 characters, appending an exclamation mark when the
kept line lacks one. -/
def question_line (raw : String) : Option String :=
  if pyStartsWith (pyLower (pyLStrip (pyStrip raw) "123456789.- ")) "draw" &&
      pyLen (pyLStrip (pyStrip raw) "123456789.- ") > 8 then
    some (if pyEndsWith (pyLStrip (pyStrip raw) "123456789.- ") "!"
          then pyLStrip (pyStrip raw) "123456789.- "
          else pyLStrip (pyStrip raw) "123456789.- " ++ "!")
  else none

/-- src/main.py lines 122-129, the static fallback list. -/
def fallback_questions : List String :=
  ["Draw a cat!", "Draw a house!", "Draw a car!", "Draw a tree!", "Draw a flower!"]

/-- src/main.py lines 80-130, the generate-questions endpoint body: llm
is the outcome of the text-model call (error = the call raised). -/
def generate_questions (llm : Except String String) : List String :=
  match llm with
  | .error _ => fallback_questions
  | .ok content => (pySplit content "\n").filterMap question_line

/-- A 1 x 101 all-black RGB image: 101 ink pixels, enough to pass the
precheck. Concrete input used by witnesses. -/
def demo_image : PILImage :=
  { width := 1, height := 101, pixels := List.replicate 101 (.tup [0, 0, 0]) }

/-- A 2 x 2 all-white RGB image: 0 ink pixels. Concrete input used by
witnesses. -/
def blank_image : PILImage :=
  { width := 2, height := 2, pixels := List.replicate 4 (.tup [255, 255, 255]) }

/-- A 2 x 1 grayscale (mode L) image: its second pixel is a bare integer,
as PIL getdata() returns for single-band modes. Concrete input used by
witnesses. -/
def gray_image : PILImage :=
  { width := 2, height := 1, pixels := [.tup [0, 0, 0], .int 7] }

/-- A concrete decoder used by witnesses: decodes the payload img to
demo_image, blank to blank_image, gray to gray_image, and fails on
everything else. -/
def demo_decode : String → Option PILImage :=
  fun image_data =>
    if image_data = "img" then some demo_image
    else if image_data = "blank" then some blank_image
    else if image_data = "gray" then some gray_image
    else none

/-- A concrete request whose payload decodes to demo_image under
demo_decode. -/
def demo_request : DrawingRequest :=
  { image := "data:image/png;base64,img", challenge := "Draw a cat!",
    level := 1, session_id := "default" }

/-- A concrete request whose payload decodes to blank_image under
demo_decode. -/
def blank_request : DrawingRequest :=
  { image := "data:image/png;base64,blank", challenge := "Draw a cat!",
    level := 1, session_id := "default" }

/-- A concrete request whose payload decodes to gray_image under
demo_decode. -/
def gray_request : DrawingRequest :=
  { image := "data:image/png;base64,gray", challenge := "Draw a cat!",
    level := 1, session_id := "default" }

/-- A concrete request whose payload fails to decode under demo_decode. -/
def bad_request : DrawingRequest :=
  { image := "data:image/png;base64,zzz", challenge := "Draw a cat!",
    level := 1, session_id := "default" }

lemma process_image_ok (decode : String → Option PILImage) (url d : String)
    (img : PILImage) (n : Nat)
    (hd : (pySplit url ",")[1]? = some d)
    (hdec : decode d = some img)
    (hcount : count_drawing_pixels img.pixels = .ok n)
    (hne : img.pixels ≠ []) :
    process_image decode url =
      .ok { size := (img.width, img.height),
            drawing_density := (n : ℚ) / (img.pixels.length : ℚ),
            has_drawing := n > 100 } := by
  unfold process_image
  simp only [hd, hdec, hcount]
  rw [if_neg (by simpa using hne)]

lemma analyze_after_precheck (decode : String → Option PILImage)
    (vision dalle : Except String String) (request : DrawingRequest)
    (d : String) (img : PILImage) (n : Nat)
    (hd : (pySplit request.image ",")[1]? = some d)
    (hdec : decode d = some img)
    (hcount : count_drawing_pixels img.pixels = .ok n)
    (hne : img.pixels ≠ [])
    (hn : 100 < n) :
    analyze_drawing decode vision dalle request =
      respond_with_judgment (extract_challenge_object request.challenge) vision dalle := by
  unfold analyze_drawing
  rw [process_image_ok decode request.image d img n hd hdec hcount hne]
  have hb : (n > 100 : Bool) = true := decide_eq_true hn
  simp [hb]

lemma count_drawing_pixels_error (ps : List PyPixel) (m : Nat)
    (hmem : PyPixel.int m ∈ ps) :
    count_drawing_pixels ps = .error "TypeError: 'int' object is not subscriptable" := by
  induction ps with
  | nil => cases hmem
  | cons p t ih =>
    rcases List.mem_cons.mp hmem with h | h
    · rw [← h]; rfl
    · cases p with
      | int k => rfl
      | tup l =>
        show (count_drawing_pixels t).bind _ = _
        rw [ih h]
        rfl

/-- Claim C7: for every image payload whose bytes do not decode to a valid
raster image (the decoder raises), the analyze-drawing operation returns
the terminal result with title Error!, points 0 and success false, without
raising and without calling any model. -/
theorem decode_failure_rejection (decode : String → Option PILImage)
    (vision dalle : Except String String) (request : DrawingRequest) (d : String)
    (hd : (pySplit request.image ",")[1]? = some d)
    (hdec : decode d = none) :
    analyze_drawing decode vision dalle request =
      ({ title := "Error!",
         message := "Could not process your drawing. Try again!",
         points := 0, success := false }, []) := by
  unfold analyze_drawing process_image
  simp only [hd, hdec]

/-- Witness for decode_failure_rejection: the payload of bad_request
contains base64 text that demo_decode rejects. -/
theorem decode_failure_rejection_witness :
    ((pySplit bad_request.image ",")[1]? = some "zzz") ∧
    demo_decode "zzz" = none ∧
    analyze_drawing demo_decode (.ok "MATCH: YES") (.ok "url") bad_request =
      ({ title := "Error!",
         message := "Could not process your drawing. Try again!",
         points := 0, success := false }, []) :=
  ⟨by decide, by decide,
   decode_failure_rejection demo_decode (.ok "MATCH: YES") (.ok "url") bad_request "zzz"
     (by decide) (by decide)⟩

/-- Claim C10: a payload that decodes to an image whose pixel values are
bare integers rather than indexable channel tuples (for example a
grayscale mode-L image) makes the pixel-sum expression raise inside the
precheck, and the analyze-drawing operation returns the decode-failure
response with title Error!, points 0 and success false, with no model
call, even though the image itself decoded successfully. -/
theorem scalar_pixel_rejection (decode : String → Option PILImage)
    (vision dalle : Except String String) (request : DrawingRequest)
    (d : String) (img : PILImage) (m : Nat)
    (hd : (pySplit request.image ",")[1]? = some d)
    (hdec : decode d = some img)
    (hmem : PyPixel.int m ∈ img.pixels) :
    analyze_drawing decode vision dalle request =
      ({ title := "Error!",
         message := "Could not process your drawing. Try again!",
         points := 0, success := false }, []) := by
  unfold analyze_drawing process_image
  simp only [hd, hdec, count_drawing_pixels_error img.pixels m hmem]

/-- Witness for scalar_pixel_rejection: gray_request decodes to
gray_image, whose second pixel is the bare integer 7. -/
theorem scalar_pixel_rejection_witness :
    ((pySplit gray_request.image ",")[1]? = some "gray") ∧
    demo_decode "gray" = some gray_image ∧
    PyPixel.int 7 ∈ gray_image.pixels ∧
    analyze_drawing demo_decode (.ok "MATCH: YES") (.ok "url") gray_request =
      ({ title := "Error!",
         message := "Could not process your drawing. Try again!",
         points := 0, success := false }, []) :=
  ⟨by decide, by decide, by decide,
   scalar_pixel_rejection demo_decode (.ok "MATCH: YES") (.ok "url") gray_request
     "gray" gray_image 7 (by decide) (by decide) (by decide)⟩

/-- Claim C3: for every successfully decoded image (which therefore has at
least one pixel, each an indexable channel tuple) whose count of pixels
with RGB channel sum below 750 is at most 100, the analyze-drawing
operation returns the No Drawing! response with points 0 and success
false, and performs no external model call; the test is on the absolute
count n, for images of any size. -/
theorem no_drawing_rejection (decode : String → Option PILImage)
    (vision dalle : Except String String) (request : DrawingRequest)
    (d : String) (img : PILImage) (n : Nat)
    (hd : (pySplit request.image ",")[1]? = some d)
    (hdec : decode d = some img)
    (hcount : count_drawing_pixels img.pixels = .ok n)
    (hle : n ≤ 100)
    (hne : img.pixels ≠ []) :
    analyze_drawing decode vision dalle request =
      ({ title := "No Drawing!",
         message := "I don't see any drawing. Try drawing something!",
         points := 0, success := false }, []) := by
  unfold analyze_drawing
  rw [process_image_ok decode request.image d img n hd hdec hcount hne]
  have hb : (n > 100 : Bool) = false := decide_eq_false (by omega)
  simp [hb]

/-- Witness for no_drawing_rejection: blank_request decodes to the
all-white blank_image, which has 0 ink pixels. -/
theorem no_drawing_rejection_witness :
    ((pySplit blank_request.image ",")[1]? = some "blank") ∧
    demo_decode "blank" = some blank_image ∧
    count_drawing_pixels blank_image.pixels = .ok 0 ∧
    (0 : Nat) ≤ 100 ∧
    blank_image.pixels ≠ [] ∧
    analyze_drawing demo_decode (.ok "MATCH: YES") (.ok "url") blank_request =
      ({ title := "No Drawing!",
         message := "I don't see any drawing. Try drawing something!",
         points := 0, success := false }, []) :=
  ⟨by decide, by decide, rfl, by decide, by decide,
   no_drawing_rejection demo_decode (.ok "MATCH: YES") (.ok "url") blank_request
     "blank" blank_image 0 (by decide) (by decide) rfl (by decide) (by decide)⟩

/-- Claim C2: for every failure of the vision-model judgment call (any
exception e) on a request that passes the precheck, the analyze-drawing
operation returns the fixed soft-success response with title Something
Magical!, points 50 and success true; the result is the same for every
failure cause e and the error is never propagated. -/
theorem judgment_failure_fallback (decode : String → Option PILImage)
    (dalle : Except String String) (request : DrawingRequest)
    (d : String) (img : PILImage) (n : Nat) (e : String)
    (hd : (pySplit request.image ",")[1]? = some d)
    (hdec : decode d = some img)
    (hcount : count_drawing_pixels img.pixels = .ok n)
    (hn : 100 < n)
    (hne : img.pixels ≠ []) :
    analyze_drawing decode (.error e) dalle request =
      ({ title := "Something Magical!",
         message := "I can see you drew something creative! The AI is taking a break, but your art is still wonderful!",
         points := 50, success := true }, [.vision]) := by
  rw [analyze_after_precheck decode (.error e) dalle request d img n hd hdec hcount hne hn]
  rfl

/-- Witness for judgment_failure_fallback: demo_request decodes to the
101-ink-pixel demo_image and the vision call raises a timeout. -/
theorem judgment_failure_fallback_witness :
    ((pySplit demo_request.image ",")[1]? = some "img") ∧
    demo_decode "img" = some demo_image ∧
    count_drawing_pixels demo_image.pixels = .ok 101 ∧
    (100 : Nat) < 101 ∧
    demo_image.pixels ≠ [] ∧
    analyze_drawing demo_decode (.error "requests.Timeout") (.ok "url") demo_request =
      ({ title := "Something Magical!",
         message := "I can see you drew something creative! The AI is taking a break, but your art is still wonderful!",
         points := 50, success := true }, [.vision]) :=
  ⟨by decide, by decide, rfl, by decide, by decide,
   judgment_failure_fallback demo_decode (.ok "url") demo_request "img" demo_image 101
     "requests.Timeout" (by decide) (by decide) rfl (by decide) (by decide)⟩

/-- Claim C8: for every failure of the text-model call, the
generate-questions operation returns exactly the five-element fallback
list in its fixed order. -/
theorem question_generation_fallback (e : String) :
    generate_questions (.error e) =
      ["Draw a cat!", "Draw a house!", "Draw a car!", "Draw a tree!",
       "Draw a flower!"] := rfl

/-- Claim C1: when the parsed judgment has isMatch = true, the
analyze-drawing operation returns points 100 and success true whatever
the reward outcome; the response produced when reward-image generation
fails differs from the reward-success response only by lacking the
reward_image field and the Check out your masterpiece! message suffix,
while title, points and success are unchanged. -/
theorem match_reward_composition (decode : String → Option PILImage)
    (request : DrawingRequest) (d : String) (img : PILImage) (n : Nat)
    (reply url err : String)
    (hd : (pySplit request.image ",")[1]? = some d)
    (hdec : decode d = some img)
    (hcount : count_drawing_pixels img.pixels = .ok n)
    (hn : 100 < n)
    (hne : img.pixels ≠ [])
    (hm : (parse_judgment reply).is_match = true) :
    (analyze_drawing decode (.ok reply) (.ok url) request).1.points = 100 ∧
    (analyze_drawing decode (.ok reply) (.ok url) request).1.success = true ∧
    (analyze_drawing decode (.ok reply) (.error err) request).1.points = 100 ∧
    (analyze_drawing decode (.ok reply) (.error err) request).1.success = true ∧
    (analyze_drawing decode (.ok reply) (.error err) request).1.title =
      (analyze_drawing decode (.ok reply) (.ok url) request).1.title ∧
    (analyze_drawing decode (.ok reply) (.ok url) request).1.reward_image = some url ∧
    (analyze_drawing decode (.ok reply) (.error err) request).1.reward_image = none ∧
    (analyze_drawing decode (.ok reply) (.ok url) request).1.message =
      (analyze_drawing decode (.ok reply) (.error err) request).1.message ++
        " Check out your masterpiece!" := by
  rw [analyze_after_precheck decode (.ok reply) (.ok url) request d img n hd hdec hcount hne hn,
    analyze_after_precheck decode (.ok reply) (.error err) request d img n hd hdec hcount hne hn]
  unfold respond_with_judgment
  simp [hm]

/-- Witness for match_reward_composition: demo_request decodes to the
101-ink-pixel demo_image and the model reply declares a match. -/
theorem match_reward_composition_witness :
    ((pySplit demo_request.image ",")[1]? = some "img") ∧
    demo_decode "img" = some demo_image ∧
    count_drawing_pixels demo_image.pixels = .ok 101 ∧
    (100 : Nat) < 101 ∧
    demo_image.pixels ≠ [] ∧
    (parse_judgment "MATCH: YES").is_match = true ∧
    ((analyze_drawing demo_decode (.ok "MATCH: YES") (.ok "u") demo_request).1.points = 100 ∧
     (analyze_drawing demo_decode (.ok "MATCH: YES") (.ok "u") demo_request).1.success = true ∧
     (analyze_drawing demo_decode (.ok "MATCH: YES") (.error "boom") demo_request).1.points = 100 ∧
     (analyze_drawing demo_decode (.ok "MATCH: YES") (.error "boom") demo_request).1.success = true ∧
     (analyze_drawing demo_decode (.ok "MATCH: YES") (.error "boom") demo_request).1.title =
       (analyze_drawing demo_decode (.ok "MATCH: YES") (.ok "u") demo_request).1.title ∧
     (analyze_drawing demo_decode (.ok "MATCH: YES") (.ok "u") demo_request).1.reward_image = some "u" ∧
     (analyze_drawing demo_decode (.ok "MATCH: YES") (.error "boom") demo_request).1.reward_image = none ∧
     (analyze_drawing demo_decode (.ok "MATCH: YES") (.ok "u") demo_request).1.message =
       (analyze_drawing demo_decode (.ok "MATCH: YES") (.error "boom") demo_request).1.message ++
         " Check out your masterpiece!") :=
  ⟨by decide, by decide, rfl, by decide, by decide, by decide,
   match_reward_composition demo_decode demo_request "img" demo_image 101
     "MATCH: YES" "u" "boom" (by decide) (by decide) rfl (by decide) (by decide) (by decide)⟩

/-- Counterexample to claim C5: the challenge Draw something! is mapped
to the object something (via the startswith draw branch, which extracts a
9-character string), not to the original challenge string as the claim
asserts. -/
theorem draw_something_counterexample :
    extract_challenge_object "Draw something!" = "something" ∧
    "something" ≠ "Draw something!" := by decide

/-- Claim C5 as amended: Draw a cat! maps to cat and Draw an owl! to owl;
Draw something! maps to something, because the challenge starts with draw
and the extracted string has 9 characters, so the fallback does not fire;
in general, whenever the extracted object is empty or shorter than 2
characters it is replaced by the original (non-lower-cased) challenge
string. -/
theorem challenge_extraction :
    extract_challenge_object "Draw a cat!" = "cat" ∧
    extract_challenge_object "Draw an owl!" = "owl" ∧
    extract_challenge_object "Draw something!" = "something" ∧
    ∀ challenge : String, pyLen (extract_raw challenge) < 2 →
      extract_challenge_object challenge = challenge := by
  refine ⟨by decide, by decide, by decide, fun challenge h => ?_⟩
  unfold extract_challenge_object
  rw [if_pos h]

/-- Witness for challenge_extraction: on the challenge draw, extraction
yields the empty string, so the original challenge is returned. -/
theorem challenge_extraction_witness :
    pyLen (extract_raw "draw") < 2 ∧ extract_challenge_object "draw" = "draw" :=
  ⟨by decide, challenge_extraction.2.2.2 "draw" (by decide)⟩

/-- Counterexample to claim C6: under a decoder for which every base64
text is a valid raster image, an unprefixed payload (no comma) still hits
the IndexError of split(',')[1] inside the precheck and the
analyze-drawing operation returns the decode-failure response; the
precheck does not accept unprefixed payloads. -/
theorem unprefixed_payload_counterexample :
    process_image (fun _ => some demo_image) "iVBORw0KGgoAAAANSUhEUg" =
      .err "IndexError: list index out of range" ∧
    analyze_drawing (fun _ => some demo_image) (.ok "MATCH: YES") (.ok "url")
      { image := "iVBORw0KGgoAAAANSUhEUg", challenge := "Draw a cat!",
        level := 1, session_id := "default" } =
      ({ title := "Error!",
         message := "Could not process your drawing. Try again!",
         points := 0, success := false }, []) := by decide

/-- Claim C6 as amended: the precheck takes the substring after the first
comma of the payload and hands it to base64+PIL decoding, so payloads
carrying a data-URL prefix proceed to pixel analysis, but a payload
without any comma (an unprefixed base64 string) raises IndexError and
yields the decode-failure result even when its content is a valid image. -/
theorem payload_comma_handling (decode : String → Option PILImage) (payload : String) :
    ((pySplit payload ",")[1]? = none →
      process_image decode payload = .err "IndexError: list index out of range") ∧
    (∀ d img n, (pySplit payload ",")[1]? = some d → decode d = some img →
      count_drawing_pixels img.pixels = .ok n → img.pixels ≠ [] →
      process_image decode payload =
        .ok { size := (img.width, img.height),
              drawing_density := (n : ℚ) / (img.pixels.length : ℚ),
              has_drawing := n > 100 }) := by
  constructor
  · intro h
    unfold process_image
    simp only [h]
  · intro d img n hd hdec hcount hne
    exact process_image_ok decode payload d img n hd hdec hcount hne

/-- Witness for payload_comma_handling: the unprefixed payload
iVBORw0KGgo fails, while the same base64 content behind a data-URL
prefix is decoded and analyzed. -/
theorem payload_comma_handling_witness :
    ((pySplit "iVBORw0KGgo" ",")[1]? = none) ∧
    process_image demo_decode "iVBORw0KGgo" =
      .err "IndexError: list index out of range" ∧
    ((pySplit "data:image/png;base64,img" ",")[1]? = some "img") ∧
    demo_decode "img" = some demo_image ∧
    process_image demo_decode "data:image/png;base64,img" =
      .ok { size := (demo_image.width, demo_image.height),
            drawing_density := ((101 : Nat) : ℚ) / (demo_image.pixels.length : ℚ),
            has_drawing := 101 > 100 } :=
  ⟨by decide,
   (payload_comma_handling demo_decode "iVBORw0KGgo").1 (by decide),
   by decide, by decide,
   (payload_comma_handling demo_decode "data:image/png;base64,img").2 "img" demo_image 101
     (by decide) (by decide) rfl (by decide)⟩

lemma pyStartsWith_excl (s a b : String)
    (h : pyStartsWith s a = true)
    (hab : (a.data.isPrefixOf b.data || b.data.isPrefixOf a.data) = false) :
    pyStartsWith s b = false := by
  unfold pyStartsWith at h ⊢
  cases hsb : b.data.isPrefixOf s.data with
  | false => rfl
  | true =>
    exfalso
    have ha : a.data <+: s.data := List.isPrefixOf_iff_prefix.mp h
    have hb : b.data <+: s.data := List.isPrefixOf_iff_prefix.mp hsb
    rcases List.prefix_or_prefix_of_prefix ha hb with hh | hh
    · have hba : a.data.isPrefixOf b.data = true := List.isPrefixOf_iff_prefix.mpr hh
      simp [hba] at hab
    · have hba : b.data.isPrefixOf a.data = true := List.isPrefixOf_iff_prefix.mpr hh
      simp [hba] at hab

lemma parse_lines_is_match (ls : List String) (acc : JudgmentResult) :
    (parse_lines ls acc).is_match =
      match last_tag_line "MATCH:" ls with
      | none => acc.is_match
      | some line => pyIn "YES" (pyUpper (pyStrip (pyReplace line "MATCH:" ""))) := by
  induction ls generalizing acc with
  | nil => rfl
  | cons l t ih =>
    show (parse_lines t _).is_match = _
    rw [ih]
    cases hlast : last_tag_line "MATCH:" t with
    | some r => simp [last_tag_line, hlast]
    | none =>
      simp only [last_tag_line, hlast]
      cases h1 : pyStartsWith (pyStrip l) "MATCH:" with
      | true => simp [h1]
      | false =>
        cases h2 : pyStartsWith (pyStrip l) "DESCRIPTION:" with
        | true => simp [h1, h2]
        | false =>
          cases h3 : pyStartsWith (pyStrip l) "MESSAGE:" with
          | true => simp [h1, h2, h3]
          | false => simp [h1, h2, h3]

lemma parse_lines_description (ls : List String) (acc : JudgmentResult) :
    (parse_lines ls acc).description =
      match last_tag_line "DESCRIPTION:" ls with
      | none => acc.description
      | some line => pyStrip (pyReplace line "DESCRIPTION:" "") := by
  induction ls generalizing acc with
  | nil => rfl
  | cons l t ih =>
    show (parse_lines t _).description = _
    rw [ih]
    cases hlast : last_tag_line "DESCRIPTION:" t with
    | some r => simp [last_tag_line, hlast]
    | none =>
      simp only [last_tag_line, hlast]
      cases h1 : pyStartsWith (pyStrip l) "MATCH:" with
      | true =>
        have hx : pyStartsWith (pyStrip l) "DESCRIPTION:" = false :=
          pyStartsWith_excl (pyStrip l) "MATCH:" "DESCRIPTION:" h1 (by decide)
        simp [h1, hx]
      | false =>
        cases h2 : pyStartsWith (pyStrip l) "DESCRIPTION:" with
        | true => simp [h1, h2]
        | false =>
          cases h3 : pyStartsWith (pyStrip l) "MESSAGE:" with
          | true => simp [h1, h2, h3]
          | false => simp [h1, h2, h3]

lemma parse_lines_message (ls : List String) (acc : JudgmentResult) :
    (parse_lines ls acc).message =
      match last_tag_line "MESSAGE:" ls with
      | none => acc.message
      | some line => pyStrip (pyReplace line "MESSAGE:" "") := by
  induction ls generalizing acc with
  | nil => rfl
  | cons l t ih =>
    show (parse_lines t _).message = _
    rw [ih]
    cases hlast : last_tag_line "MESSAGE:" t with
    | some r => simp [last_tag_line, hlast]
    | none =>
      simp only [last_tag_line, hlast]
      cases h1 : pyStartsWith (pyStrip l) "MATCH:" with
      | true =>
        have hx : pyStartsWith (pyStrip l) "MESSAGE:" = false :=
          pyStartsWith_excl (pyStrip l) "MATCH:" "MESSAGE:" h1 (by decide)
        simp [h1, hx]
      | false =>
        cases h2 : pyStartsWith (pyStrip l) "DESCRIPTION:" with
        | true =>
          have hx : pyStartsWith (pyStrip l) "MESSAGE:" = false :=
            pyStartsWith_excl (pyStrip l) "DESCRIPTION:" "MESSAGE:" h2 (by decide)
          simp [h1, h2, hx]
        | false =>
          cases h3 : pyStartsWith (pyStrip l) "MESSAGE:" with
          | true => simp [h1, h2, h3]
          | false => simp [h1, h2, h3]

/-- Claim C4 as amended: judgment-response parsing is total and is
characterized field by field. The stripped response is split into lines
and each line stripped; the last line beginning with MATCH: sets isMatch
to whether the uppercase of that line with every occurrence of MATCH:
removed (then trimmed) contains YES, and the last lines beginning
DESCRIPTION: and MESSAGE: set those fields to the line with every
occurrence of the tag removed, trimmed; a field whose line is absent
keeps its default (isMatch false, I can see your drawing!, Great effort
on your drawing!). The original claim read the rule on the remainder
after the tag; the code removes all occurrences of the tag instead. -/
theorem judgment_parsing_characterization (s : String) :
    (parse_judgment s).is_match =
      (match last_tag_line "MATCH:" (pySplit (pyStrip s) "\n") with
        | none => false
        | some line => pyIn "YES" (pyUpper (pyStrip (pyReplace line "MATCH:" "")))) ∧
    (parse_judgment s).description =
      (match last_tag_line "DESCRIPTION:" (pySplit (pyStrip s) "\n") with
        | none => "I can see your drawing!"
        | some line => pyStrip (pyReplace line "DESCRIPTION:" "")) ∧
    (parse_judgment s).message =
      (match last_tag_line "MESSAGE:" (pySplit (pyStrip s) "\n") with
        | none => "Great effort on your drawing!"
        | some line => pyStrip (pyReplace line "MESSAGE:" "")) :=
  ⟨parse_lines_is_match (pySplit (pyStrip s) "\n") _,
   parse_lines_description (pySplit (pyStrip s) "\n") _,
   parse_lines_message (pySplit (pyStrip s) "\n") _⟩

/-- Counterexample to claim C4: on the response line MATCH:YMATCH:ES the
uppercased remainder after the MATCH: tag, namely YMATCH:ES, does not
contain YES, so the claim predicts isMatch = false; but the code removes
every occurrence of MATCH: from the line, leaving YES, and sets
isMatch = true. -/
theorem match_line_replace_counterexample :
    (parse_judgment "MATCH:YMATCH:ES").is_match = true ∧
    pyIn "YES" (pyUpper (pyStrip (pyDrop "MATCH:YMATCH:ES" 6))) = false := by decide

lemma pyEndsWith_append_bang (l : String) : pyEndsWith (l ++ "!") "!" = true := by
  unfold pyEndsWith
  rw [String.data_append]
  rw [List.isSuffixOf_iff_suffix]
  exact List.suffix_append l.data "!".data

lemma question_line_eq_some (raw q : String) :
    question_line raw = some q ↔
      (pyStartsWith (pyLower (pyLStrip (pyStrip raw) "123456789.- ")) "draw" = true ∧
       8 < pyLen (pyLStrip (pyStrip raw) "123456789.- ") ∧
       q = (if pyEndsWith (pyLStrip (pyStrip raw) "123456789.- ") "!" = true
            then pyLStrip (pyStrip raw) "123456789.- "
            else pyLStrip (pyStrip raw) "123456789.- " ++ "!")) := by
  unfold question_line
  cases hA : pyStartsWith (pyLower (pyLStrip (pyStrip raw) "123456789.- ")) "draw" with
  | false =>
    simp only [Bool.false_and, Bool.false_eq_true, if_false, reduceCtorEq, false_iff]
    rintro ⟨h1, -⟩
    cases h1
  | true =>
    simp only [Bool.true_and, true_and]
    cases hB : decide (8 < pyLen (pyLStrip (pyStrip raw) "123456789.- ")) with
    | false =>
      simp only [Bool.false_eq_true, if_false, reduceCtorEq, false_iff]
      rintro ⟨h2, -⟩
      exact absurd hB (by simp [h2])
    | true =>
      simp only [if_true]
      constructor
      · intro h
        exact ⟨of_decide_eq_true hB, (Option.some_inj.mp h).symm⟩
      · rintro ⟨-, h⟩
        rw [h]

/-- Claim C9: for every model reply, a string q is in the questions list
returned by generate-questions exactly when some reply line, stripped and
with leading numbering and bullet characters removed, starts with draw
case-insensitively, has more than 8 characters at the time of the check,
and q is that line with an exclamation mark appended when it lacks one;
consequently every returned string ends with an exclamation mark, and
lines failing the prefix or length requirement contribute nothing. -/
theorem question_postprocessing (content : String) :
    (∀ q : String, q ∈ generate_questions (.ok content) ↔
      ∃ raw ∈ pySplit content "\n",
        pyStartsWith (pyLower (pyLStrip (pyStrip raw) "123456789.- ")) "draw" = true ∧
        8 < pyLen (pyLStrip (pyStrip raw) "123456789.- ") ∧
        q = (if pyEndsWith (pyLStrip (pyStrip raw) "123456789.- ") "!" = true
             then pyLStrip (pyStrip raw) "123456789.- "
             else pyLStrip (pyStrip raw) "123456789.- " ++ "!")) ∧
    (∀ q ∈ generate_questions (.ok content), pyEndsWith q "!" = true) := by
  constructor
  · intro q
    unfold generate_questions
    rw [List.mem_filterMap]
    constructor
    · rintro ⟨raw, hmem, hq⟩
      exact ⟨raw, hmem, (question_line_eq_some raw q).mp hq⟩
    · rintro ⟨raw, hmem, hcond⟩
      exact ⟨raw, hmem, (question_line_eq_some raw q).mpr hcond⟩
  · intro q hq
    unfold generate_questions at hq
    rw [List.mem_filterMap] at hq
    obtain ⟨raw, hmem, hsome⟩ := hq
    obtain ⟨hA, hB, hEq⟩ := (question_line_eq_some raw q).mp hsome
    rw [hEq]
    cases hE : pyEndsWith (pyLStrip (pyStrip raw) "123456789.- ") "!" with
    | true => rw [if_pos rfl]; exact hE
    | false =>
      rw [if_neg Bool.false_ne_true]
      exact pyEndsWith_append_bang (pyLStrip (pyStrip raw) "123456789.- ")

/-- Witness for question_postprocessing: from the reply line
1. Draw a dog, the post-processing strips the numbering and appends an
exclamation mark, so Draw a dog! is in the returned list and ends with
an exclamation mark. -/
theorem question_postprocessing_witness :
    "Draw a dog!" ∈ generate_questions (.ok "1. Draw a dog") ∧
    pyEndsWith "Draw a dog!" "!" = true :=
  ⟨((question_postprocessing "1. Draw a dog").1 "Draw a dog!").mpr
     ⟨"1. Draw a dog", by decide, by decide, by decide, by decide⟩,
   (question_postprocessing "1. Draw a dog").2 "Draw a dog!" (by decide)⟩
